import Mathlib

/-!
Verification of the Semantic-Kernel handoff-orchestration sample
(`src/Semantic-Kernel-SDK/code.py`) against its specification.

The repository is a thin script around the external `semantic_kernel` SDK:
three plugin classes returning canned strings, a `get_agents` setup routine
declaring four agents and a static handoff graph, a streaming output
callback guarded by a global `is_new_message` flag, a human-input callback,
and a straight-line `main`.  The definitions below embed those parts
shallowly: pure Python functions become Lean functions; `print` side effects
become explicit output strings; the module-global `is_new_message` boolean
becomes explicitly threaded state; `main`'s straight-line effect sequence
becomes a trace of events.  Parts whose behaviour lives only in the external
SDK (handoff-graph validation, the orchestrator's completion semantics) are
modelled from the specification and marked as such in their doc comments.
-/

namespace SemanticKernelSample

/-! ## Plugin capability functions (code.py lines 21-44)

`check_order_status` only returns a formatted string.  `process_refund` and
`process_return` additionally `print` one diagnostic line; the embedding
returns the printed lines alongside the return value. -/

/-- `OrderStatusPlugin.check_order_status` (code.py line 23): returns the
f-string `Order {order_id} is shipped and will arrive in 2-3 days.`. -/
def check_order_status (order_id : String) : String :=
  "Order " ++ order_id ++ " is shipped and will arrive in 2-3 days."

/-- Result of a plugin call that may also print to stdout: the list of lines
printed, and the value returned to the caller. -/
structure PluginCall where
  printed : List String
  result : String
deriving DecidableEq

/-- `OrderRefundPlugin.process_refund` (code.py lines 31-35): prints
`Processing refund for order {order_id} due to: {reason}` and returns
`Refund for order {order_id} has been processed successfully.`. -/
def process_refund (order_id : String) (reason : String) : PluginCall :=
  { printed := ["Processing refund for order " ++ order_id ++ " due to: " ++ reason]
    result := "Refund for order " ++ order_id ++ " has been processed successfully." }

/-- `OrderReturnPlugin.process_return` (code.py lines 40-44): prints
`Processing return for order {order_id} due to: {reason}` and returns
`Return for order {order_id} has been processed successfully.`. -/
def process_return (order_id : String) (reason : String) : PluginCall :=
  { printed := ["Processing return for order " ++ order_id ++ " due to: " ++ reason]
    result := "Return for order " ++ order_id ++ " has been processed successfully." }

/-! ## Handoff graph (code.py lines 108-133)

`OrchestrationHandoffs` accumulates directed edges
(source agent name, target agent name, transfer-condition description);
`.add` appends one edge, `.add_many` appends one edge per entry of its
target dictionary, in insertion order. -/

/-- One handoff transition: source agent name, target agent name, and the
human-readable transfer condition. -/
structure HandoffEdge where
  source_agent : String
  target_agent : String
  description : String
deriving DecidableEq

/-- `OrchestrationHandoffs.add`: record one allowed transition. -/
def addHandoff (hs : List HandoffEdge) (source_agent target_agent description : String) :
    List HandoffEdge :=
  hs ++ [⟨source_agent, target_agent, description⟩]

/-- `OrchestrationHandoffs.add_many`: record one transition per
(target agent, description) entry, all from the same source agent. -/
def addManyHandoffs (hs : List HandoffEdge) (source_agent : String)
    (target_agents : List (String × String)) : List HandoffEdge :=
  hs ++ target_agents.map fun p => ⟨source_agent, p.1, p.2⟩

/-- The four agent names declared in `get_agents` via
`project_client.agents.create_agent(name=...)` (code.py lines 54-105); an
`AzureAIAgent`'s `.name` is its definition's name. -/
def support_agent_name : String := "SupportAgent"

/-- Name of the order-status agent (code.py line 71). -/
def order_status_agent_name : String := "OrderStatusAgent"

/-- Name of the refund agent (code.py line 84). -/
def refund_agent_name : String := "RefundAgent"

/-- Name of the order-return agent (code.py line 97). -/
def order_return_agent_name : String := "OrderReturnAgent"

/-- The agent list returned by `get_agents` (code.py line 135), as names, in
return order: `[support_agent, refund_agent, order_status_agent,
order_return_agent]`. -/
def get_agents_names : List String :=
  [support_agent_name, refund_agent_name, order_status_agent_name, order_return_agent_name]

/-- The handoff relationships built in `get_agents` (code.py lines 108-133):
`add_many` from the support agent to the three specialists, then one `add`
from each specialist back to the support agent. -/
def handoffs : List HandoffEdge :=
  addHandoff
    (addHandoff
      (addHandoff
        (addManyHandoffs [] support_agent_name
          [(refund_agent_name, "Transfer to this agent if the issue is refund related"),
           (order_status_agent_name, "Transfer to this agent if the issue is order status related"),
           (order_return_agent_name, "Transfer to this agent if the issue is order return related")])
        refund_agent_name support_agent_name
        "Transfer to this agent if the issue is not refund related")
      order_status_agent_name support_agent_name
      "Transfer to this agent if the issue is not order status related")
    order_return_agent_name support_agent_name
    "Transfer to this agent if the issue is not order return related"

/-- Modelled from the spec: constructing a `HandoffOrchestration` raises
`InvalidReferenceError` when some transition's source or target agent is not
a registered agent (spec section 4.1 and section 8; the check itself lives in
the external SDK, not under src/).  `true` means the error is raised. -/
def invalidReferenceError (registry : List String) (hs : List HandoffEdge) : Bool :=
  hs.any fun e => !(registry.contains e.source_agent) || !(registry.contains e.target_agent)

/-! ## Human-input callback (code.py lines 173-176) -/

/-- `AuthorRole` of the SDK's `ChatMessageContent`, restricted to the roles
the script can produce or observe. -/
inductive AuthorRole where
  | USER
  | ASSISTANT
deriving DecidableEq

/-- The SDK's `ChatMessageContent` as used by the script: an author role and
a text content. -/
structure ChatMessageContent where
  role : AuthorRole
  content : String
deriving DecidableEq

/-- `human_response_function` (code.py lines 173-176): reads one line of user
input (here the parameter `user_input`) and wraps it unchanged in a
user-authored `ChatMessageContent`. -/
def human_response_function (user_input : String) : ChatMessageContent :=
  { role := AuthorRole.USER, content := user_input }

/-! ## Streaming output callback (code.py lines 138-170)

`streaming_agent_response_callback` prints a chunk of an agent's streamed
message.  A module-global boolean `is_new_message` (initially `True`) guards
the `"{name}: "` header; the callback prints the chunk's `content`, then a
rendering of each `FunctionCallContent` / `FunctionResultContent` item, and
on the final chunk a newline, resetting the flag to `True`.  The embedding
threads the flag explicitly and returns the printed text. -/

/-- An item of a `StreamingChatMessageContent`: the callback renders function
calls and function results and ignores items of any other type. -/
inductive ContentItem where
  | functionCall (name : String) (arguments : String)
  | functionResult (name : String) (result : String)
  | otherItem
deriving DecidableEq

/-- The SDK's `StreamingChatMessageContent` as used by the callback: the
originating agent's name, the textual content, and the item list. -/
structure StreamingChatMessageContent where
  name : String
  content : String
  items : List ContentItem
deriving DecidableEq

/-- Text printed for one item of the message (code.py lines 162-166):
`Calling '{name}' with arguments '{arguments}'` for a function call,
`Result from '{name}' is '{result}'` for a function result, nothing for any
other item type. -/
def renderItem : ContentItem → String
  | ContentItem.functionCall name arguments =>
      "Calling '" ++ name ++ "' with arguments '" ++ arguments ++ "'"
  | ContentItem.functionResult name result =>
      "Result from '" ++ name ++ "' is '" ++ result ++ "'"
  | ContentItem.otherItem => ""

/-- Text printed by the item loop (code.py lines 162-166), in item order. -/
def renderItems : List ContentItem → String
  | [] => ""
  | item :: rest => renderItem item ++ renderItems rest

/-- Initial value of the module-global `is_new_message` flag
(code.py line 139). -/
def is_new_message : Bool := true

/-- `streaming_agent_response_callback` (code.py lines 142-170), with the
global `is_new_message` flag threaded as the `st` argument: returns the text
printed to stdout by this call and the flag's value afterwards.  If the flag
is set it prints `"{message.name}: "` and clears the flag; it prints
`message.content`, then the rendered items; if `is_final` it prints a
newline and sets the flag back. -/
def streaming_agent_response_callback (message : StreamingChatMessageContent)
    (is_final : Bool) (st : Bool) : String × Bool :=
  let headerStep : String × Bool :=
    if st then (message.name ++ ": ", false) else ("", st)
  let contentOut := message.content
  let itemsOut := renderItems message.items
  let finalStep : String × Bool :=
    if is_final then ("\n", true) else ("", headerStep.2)
  (headerStep.1 ++ contentOut ++ itemsOut ++ finalStep.1, finalStep.2)

/-- A sequence of callback invocations, each a message chunk together with
its `is_final` flag, threaded through the `is_new_message` state: the total
text printed and the final state. -/
def runCallbacks : List (StreamingChatMessageContent × Bool) → Bool → String × Bool
  | [], st => ("", st)
  | (m, f) :: rest, st =>
      let step := streaming_agent_response_callback m f st
      let restRun := runCallbacks rest step.2
      (step.1 ++ restRun.1, restRun.2)

/-- All text a single chunk contributes between header and newline: its
content followed by its rendered items. -/
def chunkText (m : StreamingChatMessageContent) : String :=
  m.content ++ renderItems m.items

/-- The concatenation of the chunk texts of a list of chunks, in order. -/
def concatChunks : List StreamingChatMessageContent → String
  | [] => ""
  | m :: rest => chunkText m ++ concatChunks rest

/-! ## `main`'s effect sequence (code.py lines 179-213)

`main` is straight-line code; the embedding records the ordered trace of its
externally visible operations. -/

/-- The externally visible operations of `main`, in the order the
straight-line code performs them. -/
inductive MainEvent where
  | acquire_credential
  | create_client
  | create_agents
  | create_orchestration
  | runtime_start
  | orchestration_invoke
  | result_get
  | print_value
  | runtime_stop_when_idle
deriving DecidableEq, BEq

/-- The trace of `main` (code.py lines 183-213): enter the credential and
client contexts, build agents and the orchestration, start the runtime,
invoke the orchestration, await and print the result, then stop the runtime
when idle. -/
def main_trace : List MainEvent :=
  [MainEvent.acquire_credential,
   MainEvent.create_client,
   MainEvent.create_agents,
   MainEvent.create_orchestration,
   MainEvent.runtime_start,
   MainEvent.orchestration_invoke,
   MainEvent.result_get,
   MainEvent.print_value,
   MainEvent.runtime_stop_when_idle]

/-! ## Orchestrator session, modelled from the spec

The orchestration engine itself lives in the external SDK; src/ only
configures and invokes it.  The session state machine below is modelled from
spec sections 4.2 and 8. -/

/-- Modelled from the spec (section 4.2): an orchestration session is either
active at one registered agent or `completed` holding the stored task
summary.  The real state machine lives in the external SDK, not under src/. -/
inductive SessionState where
  | active (agent : String)
  | completed (task_summary : String)
deriving DecidableEq

/-- Modelled from the spec (sections 4.2 and 8): the reserved function calls
the orchestrator reacts to — `transfer_to_<Agent>` handoffs and
`complete_task` with a summary argument.  The real dispatch lives in the
external SDK, not under src/. -/
inductive OrchestratorEvent where
  | transfer_to (target : String)
  | complete_task (task_summary : String)
deriving DecidableEq

/-- Modelled from the spec (section 4.2): one orchestrator step.  In the
`completed` state no event causes any further transition; in an active state
`complete_task` stores the summary and completes the session, and
`transfer_to` follows the handoff edge when the graph allows it, otherwise
the session remains with the current agent. -/
def stepSession (graph : List HandoffEdge) (st : SessionState) (ev : OrchestratorEvent) :
    SessionState :=
  match st with
  | SessionState.completed s => SessionState.completed s
  | SessionState.active a =>
      match ev with
      | OrchestratorEvent.complete_task s => SessionState.completed s
      | OrchestratorEvent.transfer_to t =>
          if graph.any fun e => e.source_agent == a && e.target_agent == t then
            SessionState.active t
          else
            SessionState.active a

/-- Modelled from the spec (section 8): the session's summary, the value
`await orchestration_result.get()` returns once the session completed. -/
def sessionSummary : SessionState → Option String
  | SessionState.active _ => none
  | SessionState.completed s => some s

/-! ## Theorems -/

/-- C1: `get_agents` returns exactly four agents, named SupportAgent,
RefundAgent, OrderStatusAgent and OrderReturnAgent, and every source and
target agent name of the handoff graph is one of those four registered
names, so constructing the graph raises no `InvalidReferenceError`. -/
theorem get_agents_handoffs_registered :
    get_agents_names
      = ["SupportAgent", "RefundAgent", "OrderStatusAgent", "OrderReturnAgent"] ∧
    get_agents_names.length = 4 ∧
    (∀ e ∈ handoffs, e.source_agent ∈ get_agents_names ∧ e.target_agent ∈ get_agents_names) ∧
    invalidReferenceError get_agents_names handoffs = false := by
  refine ⟨by decide, by decide, by decide, by decide⟩

/-- C2: each plugin function returns exactly its canned string: for every
`order_id`, `check_order_status` returns
`Order {order_id} is shipped and will arrive in 2-3 days.`; for every
`order_id` and `reason`, `process_refund` returns
`Refund for order {order_id} has been processed successfully.` and
`process_return` returns
`Return for order {order_id} has been processed successfully.`; in
particular `check_order_status "123"` returns
`Order 123 is shipped and will arrive in 2-3 days.`. -/
theorem plugins_return_canned_strings :
    (∀ order_id, check_order_status order_id
      = "Order " ++ order_id ++ " is shipped and will arrive in 2-3 days.") ∧
    (∀ order_id reason, (process_refund order_id reason).result
      = "Refund for order " ++ order_id ++ " has been processed successfully.") ∧
    (∀ order_id reason, (process_return order_id reason).result
      = "Return for order " ++ order_id ++ " has been processed successfully.") ∧
    check_order_status "123" = "Order 123 is shipped and will arrive in 2-3 days." := by
  refine ⟨fun _ => rfl, fun _ _ => rfl, fun _ _ => rfl, by decide⟩

/-- Helper for C3: a run of non-final chunks followed by one final chunk,
entered with the `is_new_message` flag already cleared, prints each chunk's
text in order, then the terminating newline, and sets the flag. -/
theorem runCallbacks_tail (ms : List StreamingChatMessageContent)
    (last : StreamingChatMessageContent) :
    runCallbacks (ms.map (fun m => (m, false)) ++ [(last, true)]) false
      = (concatChunks ms ++ (chunkText last ++ "\n"), true) := by
  induction ms with
  | nil =>
      simp [runCallbacks, streaming_agent_response_callback, concatChunks, chunkText,
        String.append_assoc, String.empty_append, String.append_empty]
  | cons m rest ih =>
      simp [runCallbacks, streaming_agent_response_callback, concatChunks, chunkText,
        String.append_assoc, String.empty_append, String.append_empty, ih]

/-- Helper for C3: `concatChunks` distributes over appending a last chunk. -/
theorem concatChunks_append (ms : List StreamingChatMessageContent)
    (last : StreamingChatMessageContent) :
    concatChunks (ms ++ [last]) = concatChunks ms ++ chunkText last := by
  induction ms with
  | nil => simp [concatChunks, String.empty_append, String.append_empty]
  | cons m rest ih => simp [concatChunks, ih, String.append_assoc]

/-- C3: over one agent turn — zero or more calls with `is_final = false`
followed by one call with `is_final = true`, starting from
`is_new_message = true` — the text printed is exactly the first chunk's
agent name, `": "`, the concatenation of every chunk's content with its
function-call and function-result items each rendered as one atomic piece of
text in order, and one terminating newline; afterwards `is_new_message` is
`true` again. -/
theorem streaming_callback_turn_output (mids : List StreamingChatMessageContent)
    (last : StreamingChatMessageContent) :
    runCallbacks (mids.map (fun m => (m, false)) ++ [(last, true)]) true
      = ((match mids with
          | [] => last.name
          | m :: _ => m.name) ++ ": " ++ concatChunks (mids ++ [last]) ++ "\n", true) := by
  cases mids with
  | nil =>
      simp [runCallbacks, streaming_agent_response_callback, concatChunks, chunkText,
        String.append_assoc, String.empty_append, String.append_empty]
  | cons m rest =>
      simp [runCallbacks, streaming_agent_response_callback, concatChunks, chunkText,
        String.append_assoc, String.empty_append, String.append_empty, runCallbacks_tail,
        concatChunks_append]

/-- C4: `check_order_status` is idempotent and deterministic — two calls
with `"123"` and no state mutation in between yield identical output, that
output is the canned status line, and any two calls sharing an `order_id`
return the same string. -/
theorem check_order_status_idempotent :
    check_order_status "123" = check_order_status "123" ∧
    check_order_status "123" = "Order 123 is shipped and will arrive in 2-3 days." ∧
    (∀ order_id, check_order_status order_id = check_order_status order_id) := by
  refine ⟨rfl, by decide, fun _ => rfl⟩

/-- C5: for every input line `s`, `human_response_function` returns a
`ChatMessageContent` whose role is `AuthorRole.USER` and whose content is
exactly `s`. -/
theorem human_response_maps_input_verbatim (s : String) :
    (human_response_function s).role = AuthorRole.USER ∧
    (human_response_function s).content = s :=
  ⟨rfl, rfl⟩

/-- C6: in `main`'s trace the runtime is started before the orchestration is
invoked, the orchestration result is retrieved and printed before
`stop_when_idle`, and `stop_when_idle` occurs exactly once, after the
result. -/
theorem main_runtime_ordering :
    main_trace.indexOf MainEvent.runtime_start
      < main_trace.indexOf MainEvent.orchestration_invoke ∧
    main_trace.indexOf MainEvent.orchestration_invoke
      < main_trace.indexOf MainEvent.result_get ∧
    main_trace.indexOf MainEvent.result_get
      < main_trace.indexOf MainEvent.print_value ∧
    main_trace.indexOf MainEvent.print_value
      < main_trace.indexOf MainEvent.runtime_stop_when_idle ∧
    main_trace.count MainEvent.runtime_stop_when_idle = 1 := by
  refine ⟨by decide, by decide, by decide, by decide, by decide⟩

/-- Helper for C7: the `completed` state absorbs every further event. -/
theorem foldl_stepSession_completed (graph : List HandoffEdge) (s : String)
    (evs : List OrchestratorEvent) :
    List.foldl (stepSession graph) (SessionState.completed s) evs
      = SessionState.completed s := by
  induction evs with
  | nil => rfl
  | cons ev rest ih => simpa [stepSession] using ih

/-- C7: once `complete_task` is invoked in an active session, no further
handoff transition occurs — any sequence of later events leaves the session
completed — and the session's summary, the value
`await orchestration_result.get()` yields, equals the `task_summary`
argument of `complete_task` verbatim. -/
theorem complete_task_freezes_session (graph : List HandoffEdge) (a s : String)
    (evs : List OrchestratorEvent) :
    List.foldl (stepSession graph)
        (stepSession graph (SessionState.active a) (OrchestratorEvent.complete_task s)) evs
      = SessionState.completed s ∧
    sessionSummary
        (List.foldl (stepSession graph)
          (stepSession graph (SessionState.active a) (OrchestratorEvent.complete_task s)) evs)
      = some s := by
  have h : stepSession graph (SessionState.active a) (OrchestratorEvent.complete_task s)
      = SessionState.completed s := rfl
  rw [h, foldl_stepSession_completed]
  exact ⟨rfl, rfl⟩

/-- C8: the handoff graph is a star centered on SupportAgent: SupportAgent's
outgoing targets are exactly RefundAgent, OrderStatusAgent and
OrderReturnAgent; each specialist's only outgoing edge goes back to
SupportAgent; there is no self-loop and no edge between two specialists, so
every edge touches SupportAgent. -/
theorem handoff_graph_star :
    (handoffs.filter (fun e => e.source_agent == support_agent_name)).map
        (fun e => e.target_agent)
      = [refund_agent_name, order_status_agent_name, order_return_agent_name] ∧
    (handoffs.filter (fun e => e.source_agent == refund_agent_name)).map
        (fun e => e.target_agent) = [support_agent_name] ∧
    (handoffs.filter (fun e => e.source_agent == order_status_agent_name)).map
        (fun e => e.target_agent) = [support_agent_name] ∧
    (handoffs.filter (fun e => e.source_agent == order_return_agent_name)).map
        (fun e => e.target_agent) = [support_agent_name] ∧
    (∀ e ∈ handoffs, e.source_agent ≠ e.target_agent) ∧
    (∀ e ∈ handoffs, e.source_agent = support_agent_name ∨
      e.target_agent = support_agent_name) := by
  refine ⟨by decide, by decide, by decide, by decide, by decide, by decide⟩

/-- C9: the streaming message boundary is one boolean `is_new_message`; it is
`true` initially, after any callback invocation its value equals that call's
`is_final` argument, and the agent-name header is printed exactly when the
flag was set on entry: with the flag set the output starts with
`{name}: `, with it cleared no header is printed. -/
theorem is_new_message_boundary :
    is_new_message = true ∧
    (∀ m f st, (streaming_agent_response_callback m f st).2 = f) ∧
    (∀ m f, (streaming_agent_response_callback m f true).1
      = m.name ++ ": " ++ chunkText m ++ (if f then "\n" else "")) ∧
    (∀ m f, (streaming_agent_response_callback m f false).1
      = chunkText m ++ (if f then "\n" else "")) := by
  refine ⟨rfl, fun m f st => ?_, fun m f => ?_, fun m f => ?_⟩
  · cases f <;> cases st <;> simp [streaming_agent_response_callback]
  · cases f <;>
      simp [streaming_agent_response_callback, chunkText, String.append_assoc,
        String.append_empty]
  · cases f <;>
      simp [streaming_agent_response_callback, chunkText, String.append_assoc,
        String.append_empty, String.empty_append]

/-- C10: for a fixed `order_id`, the strings returned by `process_refund`
and `process_return` are identical for any two reasons — the reason only
changes the diagnostic line printed to stdout, never the returned result. -/
theorem reason_influences_only_diagnostic (order_id r1 r2 : String) :
    (process_refund order_id r1).result = (process_refund order_id r2).result ∧
    (process_return order_id r1).result = (process_return order_id r2).result ∧
    (process_refund order_id r1).printed
      = ["Processing refund for order " ++ order_id ++ " due to: " ++ r1] ∧
    (process_return order_id r1).printed
      = ["Processing return for order " ++ order_id ++ " due to: " ++ r1] :=
  ⟨rfl, rfl, rfl, rfl⟩

end SemanticKernelSample
